import Mathlib

/-!
Verification of the browser-mediated callback handshake of `dtool`
(`src/modules/qr.rs`, `run_qr_scanner`) and of the token verification
command (`src/modules/jwt.rs`, `jwt_verify`), as a shallow embedding.

The embedding translates the Rust source directly:

* `Json` models `serde_json::Value`; `Json.get` and `Json.as_str` model the
  `Value::get` / `Value::as_str` calls used by the `/result` handler.
* `ChanState` models the pair formed by the `Arc<Mutex<Option<Sender>>>`
  holder around the `tokio::sync::oneshot` sender (`txTaken`) and the
  one-shot slot itself (`value`).
* `handleResult` models the closure registered at `POST /result`
  (qr.rs lines 177-184), including the axum `Json` extractor: a body that
  does not parse as JSON is rejected with status 400 before the closure
  runs; a body that parses reaches the closure, which answers `"OK"`
  (status 200) unconditionally.
* `processSubmissions` runs a sequence of `/result` requests in arrival
  order (the mutex serialises the handler bodies).
* `run_qr_scanner` models the orchestration (qr.rs lines 59-220) over an
  environment of external collaborators (socket bind, `local_addr`,
  `open_browser`, `set_nonblocking`, `from_std`) and the list of `/result`
  submissions; it returns the function outcome together with the trace of
  observable events, in program order.
-/

/-- Model of `serde_json::Value`. Number contents are irrelevant to the
claims; an `Int` payload keeps the type decidable. Parsed objects have
unique keys, so first-match lookup agrees with `serde_json::Map::get`. -/
inductive Json where
  | null : Json
  | bool (b : Bool) : Json
  | num (n : Int) : Json
  | str (s : String) : Json
  | arr (xs : List Json) : Json
  | obj (fields : List (String × Json)) : Json

/-- Field lookup in an object's field list: first match wins. -/
def getField : List (String × Json) → String → Option Json
  | [], _ => none
  | (k, v) :: rest, key => if k = key then some v else getField rest key

/-- Model of `serde_json::Value::get(key)` for a string key: `Some` only on
objects that carry the key. -/
def Json.get (j : Json) (key : String) : Option Json :=
  match j with
  | .obj fields => getField fields key
  | _ => none

/-- Model of `serde_json::Value::as_str()`. -/
def Json.as_str : Json → Option String
  | .str s => some s
  | _ => none

/-- State shared between the `/result` handler and the waiting caller:
`txTaken` is whether `tx_clone.lock().unwrap().take()` has already yielded
the oneshot sender; `value` is the content of the oneshot slot. -/
structure ChanState where
  txTaken : Bool
  value : Option String
deriving DecidableEq

/-- Channel state at the start of a run: sender present, slot empty
(qr.rs line 70-71). -/
def initChan : ChanState := ⟨false, none⟩

/-- An HTTP response of the handshake server: status code and body. -/
structure Response where
  status : Nat
  body : String
deriving DecidableEq

/-- The success acknowledgement of the `/result` handler: the closure
returns the bare string `"OK"`, which axum sends with status 200. -/
def respOK : Response := ⟨200, "OK"⟩

/-- The axum `Json` extractor rejection for a body that is not valid JSON:
status 400. The rejection body text is supplied by axum and is irrelevant
to the spec; the model leaves it empty. -/
def respBadJson : Response := ⟨400, ""⟩

/-- The payload extraction of the handler:
`payload.get("data").and_then(|v| v.as_str())` (qr.rs line 178). -/
def extractData (body : Option Json) : Option String :=
  match body with
  | none => none
  | some j => (j.get "data").bind Json.as_str

/-- One `POST /result` request (qr.rs lines 177-184). The request body is
`some j` when it parsed as the JSON value `j`, and `none` when it was not
valid JSON (the extractor then rejects with 400 and the closure never
runs). When the body parsed, the closure publishes `data` into the oneshot
slot if the `data` string field is present and the sender has not been
taken yet, and answers `"OK"` in every case. -/
def handleResult (st : ChanState) (body : Option Json) : ChanState × Response :=
  match body with
  | none => (st, respBadJson)
  | some j =>
    match (j.get "data").bind Json.as_str with
    | none => (st, respOK)
    | some data =>
      if st.txTaken then (st, respOK)
      else ({ txTaken := true, value := some data }, respOK)

/-- Run a sequence of `/result` requests in arrival order, collecting the
responses. -/
def processSubmissions (st : ChanState) : List (Option Json) → ChanState × List Response
  | [] => (st, [])
  | b :: rest =>
    let step := handleResult st b
    let F := processSubmissions step.1 rest
    (F.1, step.2 :: F.2)

/-- The response each request receives, by its validity alone: 400 for an
unparseable body, 200 `"OK"` for any body that parsed as JSON. -/
def ackOf (body : Option Json) : Response :=
  match body with
  | none => respBadJson
  | some _ => respOK

/-- The payload of the first submission carrying a string `data` field. -/
def firstValid : List (Option Json) → Option String
  | [] => none
  | b :: rest =>
    match extractData b with
    | some d => some d
    | none => firstValid rest

/-- Number of requests in the sequence that change the channel state. -/
def transCount (st : ChanState) : List (Option Json) → Nat
  | [] => 0
  | b :: rest =>
    let st' := (handleResult st b).1
    (if st' = st then 0 else 1) + transCount st' rest

/-- `specExpectedStructure` restates the structure claim C1 expects of a
`/result` body, following the spec's words (a JSON object with the
required string payload field), to compare with what `handleResult`
actually rejects. -/
def specExpectedStructure (body : Option Json) : Bool :=
  match body with
  | some (.obj fields) =>
    match getField fields "data" with
    | some (.str _) => true
    | _ => false
  | _ => false

/- ### Helper lemmas on the channel -/

theorem handleResult_resp (st : ChanState) (b : Option Json) :
    (handleResult st b).2 = ackOf b := by
  cases b with
  | none => rfl
  | some j =>
    simp only [handleResult, ackOf]
    cases (j.get "data").bind Json.as_str with
    | none => rfl
    | some d => by_cases h : st.txTaken <;> simp [h]

theorem handleResult_invalid (st : ChanState) (b : Option Json)
    (h : extractData b = none) : (handleResult st b).1 = st := by
  cases b with
  | none => rfl
  | some j =>
    simp only [extractData] at h
    simp [handleResult, h]

theorem handleResult_taken (st : ChanState) (b : Option Json)
    (h : st.txTaken = true) : (handleResult st b).1 = st := by
  cases b with
  | none => rfl
  | some j =>
    simp only [handleResult]
    cases (j.get "data").bind Json.as_str with
    | none => rfl
    | some d => simp [h]

theorem handleResult_fresh_valid (st : ChanState) (b : Option Json) (d : String)
    (ht : st.txTaken = false) (h : extractData b = some d) :
    (handleResult st b).1 = ⟨true, some d⟩ := by
  cases b with
  | none => simp [extractData] at h
  | some j =>
    simp only [extractData] at h
    simp [handleResult, h, ht]

theorem processSubmissions_resps (st : ChanState) (subs : List (Option Json)) :
    (processSubmissions st subs).2 = subs.map ackOf := by
  induction subs generalizing st with
  | nil => rfl
  | cons b rest ih =>
    simp [processSubmissions, ih, handleResult_resp]

theorem processSubmissions_taken (st : ChanState) (subs : List (Option Json))
    (h : st.txTaken = true) : (processSubmissions st subs).1 = st := by
  induction subs with
  | nil => rfl
  | cons b rest ih =>
    simp [processSubmissions, handleResult_taken st b h, ih]

theorem processSubmissions_fresh (subs : List (Option Json)) :
    (processSubmissions initChan subs).1 =
      match firstValid subs with
      | none => initChan
      | some d => ⟨true, some d⟩ := by
  induction subs with
  | nil => rfl
  | cons b rest ih =>
    simp only [processSubmissions, firstValid]
    cases h : extractData b with
    | none =>
      rw [handleResult_invalid initChan b h]
      exact ih
    | some d =>
      rw [handleResult_fresh_valid initChan b d rfl h]
      rw [processSubmissions_taken ⟨true, some d⟩ rest rfl]

theorem transCount_taken (st : ChanState) (subs : List (Option Json))
    (h : st.txTaken = true) : transCount st subs = 0 := by
  induction subs with
  | nil => rfl
  | cons b rest ih =>
    simp [transCount, handleResult_taken st b h, ih]

theorem transCount_fresh (subs : List (Option Json)) :
    transCount initChan subs = if (firstValid subs).isSome then 1 else 0 := by
  induction subs with
  | nil => rfl
  | cons b rest ih =>
    cases h : extractData b with
    | none =>
      simp only [transCount, firstValid, h]
      rw [handleResult_invalid initChan b h]
      simpa using ih
    | some d =>
      simp only [transCount, firstValid, h]
      rw [handleResult_fresh_valid initChan b d rfl h]
      have hne : (⟨true, some d⟩ : ChanState) ≠ initChan := by
        simp [initChan]
      rw [transCount_taken ⟨true, some d⟩ rest rfl]
      simp [hne]

/- ### Orchestration model (`run_qr_scanner`, qr.rs lines 59-220) -/

/-- Observable events of a `run_qr_scanner` execution, in program order.
`printUrl` is the `eprintln` of the callback URL (line 193);
`launchBrowser` is the call to `open_browser` (line 196); `printBrowserFail`
is the `eprintln` of the launch-failure message (line 197); `spawnServer`
is `tokio::spawn(axum::serve(listener, app))` (lines 207-210);
`recvResult` is `rx.await` resolving with a payload (line 213);
`abortServer` is `server_handle.abort()` (line 217). -/
inductive Event where
  | buildRouter : Event
  | bindListener : Event
  | printUrl (url : String) : Event
  | launchBrowser (url : String) : Event
  | printBrowserFail (msg : String) : Event
  | spawnServer : Event
  | recvResult (payload : String) : Event
  | abortServer : Event
deriving DecidableEq

/-- External collaborators of one `run_qr_scanner` execution, at their
interface boundary: the fallible std/tokio calls of lines 187-204 (each an
`Except` carrying the formatted OS error text), the list of `/result`
request bodies the spawned server receives (`subs`, in arrival order), and
whether the oneshot sender ends up dropped without sending
(`senderDropped`, the `RecvError` case of `rx.await`; the sender lives in
the router owned by the spawned server task, so this requires abnormal
termination of that task). -/
structure Env where
  bindResult : Except String Unit
  localAddrResult : Except String String
  openBrowserResult : Except String Unit
  setNonblockingResult : Except String Unit
  fromStdResult : Except String Unit
  subs : List (Option Json)
  senderDropped : Bool

/-- Outcome of `run_qr_scanner`: either the function returns a
`Result<Vec<String>, String>` value, or it stays suspended in `rx.await`
forever (no submission ever carries a payload and the sender is never
dropped; the code has no timeout). -/
inductive RunOutcome where
  | returns (r : Except String (List String)) : RunOutcome
  | blocked : RunOutcome

/-- Shallow embedding of `run_qr_scanner` (qr.rs lines 59-220): the router
is built (lines 175-184), the listener is bound (187, `?` on failure),
`local_addr` is read (189), the URL is printed (193), `open_browser` is
invoked and a failure is only reported (196-198), the listener is converted
(201-204, `?` on failure), the server future is spawned (207-210), and the
function suspends in `rx.await` (213); on receipt the server is aborted
(217) and `Ok(vec![result])` is returned (219). The `?` on `rx.await`
returns the receive error without reaching `server_handle.abort()`. -/
def run_qr_scanner (env : Env) : RunOutcome × List Event :=
  match env.bindResult with
  | .error e =>
    (.returns (.error ("Failed to bind to port: " ++ e)), [.buildRouter])
  | .ok _ =>
    match env.localAddrResult with
    | .error e =>
      (.returns (.error ("Failed to get local address: " ++ e)),
        [.buildRouter, .bindListener])
    | .ok addr =>
      let url := "http://" ++ addr
      let ev3 : List Event :=
        match env.openBrowserResult with
        | .error e =>
          [.buildRouter, .bindListener, .printUrl url, .launchBrowser url,
            .printBrowserFail ("Failed to open browser: " ++ e ++
              ". Please open " ++ url ++ " manually.")]
        | .ok _ =>
          [.buildRouter, .bindListener, .printUrl url, .launchBrowser url]
      match env.setNonblockingResult with
      | .error e => (.returns (.error ("Failed to set non-blocking: " ++ e)), ev3)
      | .ok _ =>
        match env.fromStdResult with
        | .error e => (.returns (.error ("Failed to convert listener: " ++ e)), ev3)
        | .ok _ =>
          let ev4 := ev3 ++ [.spawnServer]
          match (processSubmissions initChan env.subs).1.value with
          | some p =>
            (.returns (.ok [p]), ev4 ++ [.recvResult p, .abortServer])
          | none =>
            if env.senderDropped then
              (.returns (.error "Failed to receive QR code result"), ev4)
            else
              (.blocked, ev4)

/-- A request body carrying the payload `p` as the string `data` field of a
JSON object, as the callback page sends it. -/
def validSub (p : String) : Option Json :=
  some (.obj [("data", .str p)])

/-- An environment in which every external call succeeds, `/result` is
never requested, and the sender is never dropped. -/
def envQuiet : Env :=
  ⟨.ok (), .ok "127.0.0.1:1", .ok (), .ok (), .ok (), [], false⟩

/- ### `jwt_verify` model (jwt.rs lines 89-96 and 157-186) -/

/-- The HMAC algorithms accepted by `parse_algorithm` (jwt.rs lines 89-96). -/
inductive Algorithm where
  | HS256 : Algorithm
  | HS384 : Algorithm
  | HS512 : Algorithm
deriving DecidableEq

/-- Model of `str::to_uppercase` as character-wise upper-casing, which
agrees with Rust on the ASCII algorithm names this module compares
against. (`String.toUpper` itself is defined by well-founded recursion and
does not reduce in the kernel.) -/
def to_uppercase (s : String) : String := ⟨s.data.map Char.toUpper⟩

/-- Translation of `parse_algorithm` (jwt.rs lines 89-96). -/
def parse_algorithm (alg : String) : Except String Algorithm :=
  match to_uppercase alg with
  | "HS256" => .ok .HS256
  | "HS384" => .ok .HS384
  | "HS512" => .ok .HS512
  | _ => .error ("Unsupported algorithm: " ++ alg)

/-- Translation of `jwt_verify` (jwt.rs lines 157-186). External
collaborators are passed at their interface boundary: `inputRes` is the
result of `base::input_string(matches)` (CLI/stdin reading, outside this
module); `decode` is `jsonwebtoken::decode::<Value>` under the validation
built at lines 164-166, returning the claims on success or, on a signature
or claim validation failure, the `Debug` rendering of `e.kind()`;
`toStringPretty` is `serde_json::to_string_pretty`. -/
def jwt_verify (inputRes : Except String String) (secret : String)
    (algStr : String) (decode : String → String → Algorithm → Except String Json)
    (toStringPretty : Json → Except String String) :
    Except String (List String) :=
  match inputRes with
  | .error e => .error e
  | .ok input =>
    let token := input.trim
    match parse_algorithm algStr with
    | .error e => .error e
    | .ok algorithm =>
      match decode token secret algorithm with
      | .ok tokenData =>
        match toStringPretty tokenData with
        | .error e => .error e
        | .ok payloadJson => .ok ["Valid: true", "Payload: " ++ payloadJson]
      | .error kind => .ok ["Valid: false", "Error: " ++ kind]

/- ### Claim theorems -/

/-- Claim C1, counterexample: the body `{}` parses as JSON but is not an
object with the required string `data` field, so under the claim the
response should be 400; the handler instead answers 200 `"OK"` (the axum
`Json` extractor accepts any well-formed JSON and the closure answers
`"OK"` unconditionally), leaving the channel state unchanged. -/
theorem qr_result_missing_field_not_rejected :
    specExpectedStructure (some (Json.obj [])) = false ∧
    (handleResult initChan (some (Json.obj []))).2.status ≠ 400 ∧
    handleResult initChan (some (Json.obj [])) = (initChan, respOK) := by
  decide

/-- Claim C1 (amended): a `/result` POST whose body is not valid JSON is
rejected with status 400 by the `Json` extractor, the channel state is
unaffected, and the server keeps handling subsequent requests exactly as
it would have without the malformed one. -/
theorem qr_unparseable_body_rejected_400 (st : ChanState)
    (rest : List (Option Json)) :
    handleResult st none = (st, respBadJson) ∧
    respBadJson.status = 400 ∧
    processSubmissions st (none :: rest) =
      ((processSubmissions st rest).1,
        respBadJson :: (processSubmissions st rest).2) := by
  refine ⟨rfl, rfl, ?_⟩
  simp [processSubmissions, handleResult]

/-- Claim C2: for every sequence of at least two submissions containing a
valid one, the channel ends holding the payload of the first valid
submission, every submission is acknowledged per its validity (200 `"OK"`
if the body parsed as JSON, 400 otherwise), and exactly one request in
the sequence changes the channel state. -/
theorem qr_first_valid_submission_wins (subs : List (Option Json))
    (_h2 : 2 ≤ subs.length) (hv : (firstValid subs).isSome = true) :
    (processSubmissions initChan subs).1.value = firstValid subs ∧
    (processSubmissions initChan subs).2 = subs.map ackOf ∧
    transCount initChan subs = 1 := by
  refine ⟨?_, processSubmissions_resps _ _, ?_⟩
  · rw [processSubmissions_fresh]
    cases hfv : firstValid subs with
    | none => rw [hfv] at hv; simp at hv
    | some d => simp
  · rw [transCount_fresh]
    simp [hv]

/-- Witness for claim C2 at a concrete sequence: a submission with no
`data` field, then the valid payload `"abc123"`, then an unparseable body. -/
theorem qr_first_valid_submission_wins_witness :
    (processSubmissions initChan
        [some (Json.obj []), validSub "abc123", none]).1.value =
      firstValid [some (Json.obj []), validSub "abc123", none] ∧
    (processSubmissions initChan
        [some (Json.obj []), validSub "abc123", none]).2 =
      [some (Json.obj []), validSub "abc123", none].map ackOf ∧
    transCount initChan [some (Json.obj []), validSub "abc123", none] = 1 :=
  qr_first_valid_submission_wins [some (Json.obj []), validSub "abc123", none]
    (by decide) (by decide)

/-- Claim C9: a `/result` POST whose body is valid JSON but carries no
top-level `data` field with a string value (objects without the field,
arrays, numbers, null, ...) is answered 200 `"OK"` and does not change the
channel state. -/
theorem qr_result_no_data_string_acknowledged (st : ChanState) (j : Json)
    (h : (j.get "data").bind Json.as_str = none) :
    handleResult st (some j) = (st, respOK) ∧ respOK.status = 200 ∧
    respOK.body = "OK" := by
  refine ⟨?_, rfl, rfl⟩
  simp [handleResult, h]

/-- Witness for claim C9 at the JSON array `[]`. -/
theorem qr_result_no_data_string_acknowledged_witness :
    ((Json.arr []).get "data").bind Json.as_str = none ∧
    handleResult initChan (some (Json.arr [])) = (initChan, respOK) :=
  ⟨rfl, (qr_result_no_data_string_acknowledged initChan (Json.arr []) rfl).1⟩

/-- Claim C10: whenever reading the input and parsing the algorithm
succeed and token validation fails (`decode` returns an error kind),
`jwt_verify` returns `Ok` — never `Err` — carrying the two lines
`"Valid: false"` and the error kind. -/
theorem jwt_verify_reports_invalid_not_error (inputRes : Except String String)
    (i secret algStr : String) (alg : Algorithm) (k : String)
    (decode : String → String → Algorithm → Except String Json)
    (toStringPretty : Json → Except String String)
    (hi : inputRes = .ok i)
    (ha : parse_algorithm algStr = .ok alg)
    (hd : decode i.trim secret alg = .error k) :
    jwt_verify inputRes secret algStr decode toStringPretty =
      .ok ["Valid: false", "Error: " ++ k] := by
  simp [jwt_verify, hi, ha, hd]

/-- Witness for claim C10: a decode oracle failing with
`InvalidSignature` under algorithm string `"HS256"`. -/
theorem jwt_verify_reports_invalid_not_error_witness :
    jwt_verify (.ok "tok") "s" "HS256"
        (fun _ _ _ => .error "InvalidSignature") (fun _ => .ok "") =
      .ok ["Valid: false", "Error: " ++ "InvalidSignature"] :=
  jwt_verify_reports_invalid_not_error (.ok "tok") "tok" "s" "HS256"
    .HS256 "InvalidSignature" (fun _ _ _ => .error "InvalidSignature")
    (fun _ => .ok "") rfl (by rfl) rfl

/-- An environment in which every external call succeeds and `/result`
receives exactly one request, the valid payload `"abc123"`. -/
def envOne : Env :=
  ⟨.ok (), .ok "127.0.0.1:1", .ok (), .ok (), .ok (), [validSub "abc123"], false⟩

/-- An environment in which binding the loopback listener fails. -/
def envBindFail : Env :=
  ⟨.error "resource exhausted", .ok "127.0.0.1:1", .ok (), .ok (), .ok (), [], false⟩

/-- An environment in which the browser launch fails and `/result`
receives the valid payload `"xyz"`. -/
def envBrowserFail : Env :=
  ⟨.ok (), .ok "127.0.0.1:1", .error "exec format error", .ok (), .ok (),
    [validSub "xyz"], false⟩

/-- Claim C3: when the single request to `/result` carries the valid
payload `P`, the channel delivers exactly `P` and the orchestration
returns `Ok(vec![P])` — one text line holding the payload unmodified —
whatever the browser launch did. -/
theorem qr_single_valid_payload_roundtrip (P : String) (env : Env) (a : String)
    (hb : env.bindResult = .ok ()) (hl : env.localAddrResult = .ok a)
    (hs : env.setNonblockingResult = .ok ()) (hf : env.fromStdResult = .ok ())
    (hsub : env.subs = [validSub P]) :
    (processSubmissions initChan env.subs).1.value = some P ∧
    (run_qr_scanner env).1 = RunOutcome.returns (.ok [P]) := by
  have hval : (processSubmissions initChan env.subs).1.value = some P := by
    rw [hsub]
    simp [processSubmissions, handleResult, validSub, Json.get, getField,
      Json.as_str, initChan]
  refine ⟨hval, ?_⟩
  cases ho : env.openBrowserResult with
  | ok u => simp [run_qr_scanner, hb, hl, hs, hf, ho, hval]
  | error e => simp [run_qr_scanner, hb, hl, hs, hf, ho, hval]

/-- Witness for claim C3 in the environment `envOne`. -/
theorem qr_single_valid_payload_roundtrip_witness :
    (processSubmissions initChan envOne.subs).1.value = some "abc123" ∧
    (run_qr_scanner envOne).1 = RunOutcome.returns (.ok ["abc123"]) :=
  qr_single_valid_payload_roundtrip "abc123" envOne "127.0.0.1:1"
    rfl rfl rfl rfl rfl

/-- Claim C4, counterexample: in the run `envQuiet`, `open_browser` is
invoked (qr.rs line 196) strictly before the server future is spawned
(lines 207-210), so the serve loop does not start before the browser is
instructed to navigate; the claimed ordering fails. -/
theorem qr_browser_launch_precedes_server_spawn :
    Event.launchBrowser "http://127.0.0.1:1" ∈ (run_qr_scanner envQuiet).2 ∧
    Event.spawnServer ∈ (run_qr_scanner envQuiet).2 ∧
    ¬ ((run_qr_scanner envQuiet).2.indexOf Event.spawnServer <
        (run_qr_scanner envQuiet).2.indexOf
          (Event.launchBrowser "http://127.0.0.1:1")) := by
  decide

/-- Claim C4 (amended): the loopback listener is bound — after which the
OS accepts connections into the listen backlog, so none is refused — and
the router is built before the browser is instructed to navigate, but the
serve task that processes requests through the routes is spawned only
after the browser launch (and before the wait); early connections queue in
the backlog until it starts. -/
theorem qr_listener_bound_before_browser_then_spawn (env : Env) (a : String)
    (hb : env.bindResult = .ok ()) (hl : env.localAddrResult = .ok a)
    (hs : env.setNonblockingResult = .ok ()) (hf : env.fromStdResult = .ok ()) :
    ∃ mid tail,
      (run_qr_scanner env).2 =
        [Event.buildRouter, Event.bindListener, Event.printUrl ("http://" ++ a),
          Event.launchBrowser ("http://" ++ a)] ++ mid ++
          Event.spawnServer :: tail ∧
      ∀ e ∈ mid, ∃ m, e = Event.printBrowserFail m := by
  cases ho : env.openBrowserResult with
  | ok u =>
    cases hv : (processSubmissions initChan env.subs).1.value with
    | some p =>
      refine ⟨[], [Event.recvResult p, Event.abortServer], ?_, by simp⟩
      simp [run_qr_scanner, hb, hl, hs, hf, ho, hv]
    | none =>
      refine ⟨[], [], ?_, by simp⟩
      cases hd : env.senderDropped <;>
        simp [run_qr_scanner, hb, hl, hs, hf, ho, hv, hd]
  | error e =>
    cases hv : (processSubmissions initChan env.subs).1.value with
    | some p =>
      refine ⟨[Event.printBrowserFail ("Failed to open browser: " ++ e ++
          ". Please open " ++ ("http://" ++ a) ++ " manually.")],
        [Event.recvResult p, Event.abortServer], ?_, ?_⟩
      · simp [run_qr_scanner, hb, hl, hs, hf, ho, hv]
      · intro x hx
        simp at hx
        exact ⟨_, hx⟩
    | none =>
      refine ⟨[Event.printBrowserFail ("Failed to open browser: " ++ e ++
          ". Please open " ++ ("http://" ++ a) ++ " manually.")], [], ?_, ?_⟩
      · cases hd : env.senderDropped <;>
          simp [run_qr_scanner, hb, hl, hs, hf, ho, hv, hd]
      · intro x hx
        simp at hx
        exact ⟨_, hx⟩

/-- Witness for the amended claim C4 in the environment `envQuiet`. -/
theorem qr_listener_bound_before_browser_then_spawn_witness :
    ∃ mid tail,
      (run_qr_scanner envQuiet).2 =
        [Event.buildRouter, Event.bindListener,
          Event.printUrl ("http://" ++ "127.0.0.1:1"),
          Event.launchBrowser ("http://" ++ "127.0.0.1:1")] ++ mid ++
          Event.spawnServer :: tail ∧
      ∀ e ∈ mid, ∃ m, e = Event.printBrowserFail m :=
  qr_listener_bound_before_browser_then_spawn envQuiet "127.0.0.1:1"
    rfl rfl rfl rfl

/-- Claim C5: when `/result` is never requested and the sender is not
dropped, `run_qr_scanner` stays suspended in `rx.await` forever — the
function has no timeout, no interrupt-cancellation path, no `Cancelled`
error, and `server_handle.abort()` is never reached on this path. The
code installs no signal handler: an interrupt terminates the whole
process by its default disposition, so the function neither stops the
server itself nor returns any error to its caller. -/
theorem qr_no_cancellation_exit :
    run_qr_scanner envQuiet =
      (RunOutcome.blocked,
        [Event.buildRouter, Event.bindListener,
          Event.printUrl "http://127.0.0.1:1",
          Event.launchBrowser "http://127.0.0.1:1", Event.spawnServer]) ∧
    Event.abortServer ∉ (run_qr_scanner envQuiet).2 := by
  exact ⟨rfl, by decide⟩

/-- Claim C6: when binding the loopback listener fails, `run_qr_scanner`
returns the bind error immediately: its trace holds only the router
construction — the browser-launch collaborator is never invoked and no
server is spawned. -/
theorem qr_bind_failure_aborts_early (env : Env) (e : String)
    (h : env.bindResult = .error e) :
    run_qr_scanner env =
      (RunOutcome.returns (.error ("Failed to bind to port: " ++ e)),
        [Event.buildRouter]) ∧
    (∀ u, Event.launchBrowser u ∉ (run_qr_scanner env).2) ∧
    Event.spawnServer ∉ (run_qr_scanner env).2 := by
  have hr : run_qr_scanner env =
      (RunOutcome.returns (.error ("Failed to bind to port: " ++ e)),
        [Event.buildRouter]) := by
    simp [run_qr_scanner, h]
  refine ⟨hr, ?_, ?_⟩ <;> simp [hr]

/-- Witness for claim C6 in the environment `envBindFail`. -/
theorem qr_bind_failure_aborts_early_witness :
    run_qr_scanner envBindFail =
      (RunOutcome.returns
        (.error ("Failed to bind to port: " ++ "resource exhausted")),
        [Event.buildRouter]) ∧
    (∀ u, Event.launchBrowser u ∉ (run_qr_scanner envBindFail).2) ∧
    Event.spawnServer ∉ (run_qr_scanner envBindFail).2 :=
  qr_bind_failure_aborts_early envBindFail "resource exhausted" rfl

/-- Claim C7: when the channel delivers a payload `p` to the waiting
orchestrator, `server_handle.abort()` is called on this exit path — the
trace ends with the receipt followed by the abort — and `Ok(vec![p])` is
returned to the caller. -/
theorem qr_receipt_aborts_server_and_returns (env : Env) (a p : String)
    (hb : env.bindResult = .ok ()) (hl : env.localAddrResult = .ok a)
    (hs : env.setNonblockingResult = .ok ()) (hf : env.fromStdResult = .ok ())
    (hv : (processSubmissions initChan env.subs).1.value = some p) :
    (run_qr_scanner env).1 = RunOutcome.returns (.ok [p]) ∧
    ∃ pre, (run_qr_scanner env).2 =
      pre ++ [Event.recvResult p, Event.abortServer] := by
  cases ho : env.openBrowserResult with
  | ok u =>
    refine ⟨?_, ⟨[Event.buildRouter, Event.bindListener,
      Event.printUrl ("http://" ++ a), Event.launchBrowser ("http://" ++ a),
      Event.spawnServer], ?_⟩⟩ <;>
      simp [run_qr_scanner, hb, hl, hs, hf, ho, hv]
  | error e =>
    refine ⟨?_, ⟨[Event.buildRouter, Event.bindListener,
      Event.printUrl ("http://" ++ a), Event.launchBrowser ("http://" ++ a),
      Event.printBrowserFail ("Failed to open browser: " ++ e ++
        ". Please open " ++ ("http://" ++ a) ++ " manually."),
      Event.spawnServer], ?_⟩⟩ <;>
      simp [run_qr_scanner, hb, hl, hs, hf, ho, hv]

/-- Witness for claim C7 in the environment `envBrowserFail`, whose single
submission delivers `"xyz"`. -/
theorem qr_receipt_aborts_server_and_returns_witness :
    (run_qr_scanner envBrowserFail).1 = RunOutcome.returns (.ok ["xyz"]) ∧
    ∃ pre, (run_qr_scanner envBrowserFail).2 =
      pre ++ [Event.recvResult "xyz", Event.abortServer] :=
  qr_receipt_aborts_server_and_returns envBrowserFail "127.0.0.1:1" "xyz"
    rfl rfl rfl rfl (by rfl)

/-- Claim C8: when the browser launch fails, the orchestration does not
abort: the callback URL has already been printed (and is printed whatever
the launch outcome), the failure is reported as an informational message
naming the URL, and the run proceeds to the wait — its outcome is the one
the same environment yields with a successful launch. -/
theorem qr_browser_failure_nonfatal (env : Env) (a e : String)
    (hb : env.bindResult = .ok ()) (hl : env.localAddrResult = .ok a)
    (ho : env.openBrowserResult = .error e)
    (hs : env.setNonblockingResult = .ok ()) (hf : env.fromStdResult = .ok ()) :
    Event.printUrl ("http://" ++ a) ∈ (run_qr_scanner env).2 ∧
    Event.printBrowserFail ("Failed to open browser: " ++ e ++
      ". Please open " ++ ("http://" ++ a) ++ " manually.") ∈
      (run_qr_scanner env).2 ∧
    (run_qr_scanner env).1 =
      (run_qr_scanner { env with openBrowserResult := .ok () }).1 := by
  cases hv : (processSubmissions initChan env.subs).1.value with
  | some p =>
    refine ⟨?_, ?_, ?_⟩ <;> simp [run_qr_scanner, hb, hl, ho, hs, hf, hv]
  | none =>
    cases hd : env.senderDropped <;>
      (refine ⟨?_, ?_, ?_⟩ <;> simp [run_qr_scanner, hb, hl, ho, hs, hf, hv, hd])

/-- Witness for claim C8 in the environment `envBrowserFail`. -/
theorem qr_browser_failure_nonfatal_witness :
    Event.printUrl ("http://" ++ "127.0.0.1:1") ∈
      (run_qr_scanner envBrowserFail).2 ∧
    Event.printBrowserFail ("Failed to open browser: " ++ "exec format error" ++
      ". Please open " ++ ("http://" ++ "127.0.0.1:1") ++ " manually.") ∈
      (run_qr_scanner envBrowserFail).2 ∧
    (run_qr_scanner envBrowserFail).1 =
      (run_qr_scanner { envBrowserFail with openBrowserResult := .ok () }).1 :=
  qr_browser_failure_nonfatal envBrowserFail "127.0.0.1:1" "exec format error"
    rfl rfl rfl rfl rfl
